import Mathlib

/-!
Verification development for the tele-bot repository's client core:
session bootstrap (token exchange), review-queue cursor logic, swipe
resolution, cache invalidation, and the authenticated request gateway.

Two client variants exist in the repository and both are embedded:
* `EventSortUI` — the TypeScript single-card variant
  (src/eventsort-ui: App.tsx, components/EventCard.tsx, services/api.ts);
* `Frontend` — the react-query list variant
  (src/frontend: App.jsx, hooks/useAuth.js, hooks/useEvents.js,
  api/client.js).
-/

namespace TeleBot

/-- Event record, from src/eventsort-ui/src/types/Event.ts.  Numeric `fee`
is embedded as `Option Int` (`null` is `none`, `0` is `some 0`). -/
structure Event where
  id : Nat
  user_id : Nat
  username : String
  title : String
  event_type : String
  date : String
  location : Option String
  synopsis : String
  organisation : Option String
  fee : Option Int
  signup_link : Option String
  deadline : Option String
  target_audience : Option String
  refreshments : Option String
  key_speakers : Option String
  raw_message : Option String
  user_interested : Option Bool
  date_created : String
deriving Repr, DecidableEq

/-- Response of `POST /auth/validate-token` (types/Event.ts `AuthResponse`). -/
structure AuthResponse where
  user_id : Nat
  username : String
  message : String
deriving Repr, DecidableEq

/-- Aggregate stats record (types/Event.ts `Stats`). -/
structure Stats where
  total_events : Nat
  interested : Nat
  not_interested : Nat
  pending_swipes : Nat
  urgent_events : Nat
deriving Repr, DecidableEq

/-- One outbound HTTP call, tagged by the API function that issues it
(services/api.ts resp. hooks/useAuth.js, hooks/useEvents.js). -/
inductive Request where
  | validateToken (token : String)
  | getEvents (filter : String)
  | getEvent (id : Nat)
  | swipe (eventId : Nat) (interested : Bool)
  | getInterested
  | getStats
deriving Repr, DecidableEq

/-- Recognizer for the token-exchange request. -/
def isTokenExchange : Request → Bool
  | .validateToken _ => true
  | _ => false

/-- Recognizer for the decision-recording (swipe) request. -/
def isSwipeRequest : Request → Bool
  | .swipe _ _ => true
  | _ => false

/-- `URLSearchParams.get(k)`: first value bound to `k`, else `null`. -/
def getParam (search : List (String × String)) (k : String) : Option String :=
  (search.find? (fun p => p.1 = k)).map (fun p => p.2)

/-- JavaScript truthiness of a `string | null` value: `null` and `""` are
falsy, every other string truthy (`if (!token)`, `enabled: !!token`). -/
def jsTruthy : Option String → Bool
  | none => false
  | some s => s != ""

namespace EventSortUI

/-- Swipe gesture direction ('left' | 'right' in App.tsx). -/
inductive Direction where
  | left
  | right
deriving Repr, DecidableEq

/-- `const interested = direction === 'right'` (App.tsx `handleSwipe`). -/
def interestedOf : Direction → Bool
  | .right => true
  | .left => false

/-- React state of the eventsort-ui `App` component (App.tsx `useState`s). -/
structure AppState where
  events : List Event
  currentIndex : Nat
  loading : Bool
  error : Option String
  authenticated : Bool
  swiping : Bool
  swipeDirection : Option Direction
deriving Repr, DecidableEq

/-- Initial component state: the `useState` initializers in App.tsx. -/
def initialState : AppState :=
  { events := []
    currentIndex := 0
    loading := true
    error := none
    authenticated := false
    swiping := false
    swipeDirection := none }

/-- The early-return guard of `handleSwipe`:
`if (swiping || currentIndex >= events.length) return;`. -/
def swipeBlocked (s : AppState) : Bool :=
  s.swiping || s.events.length ≤ s.currentIndex

/-- Outcome of one `handleSwipe` invocation, observed at the moment the
swipe promise settles: the component state at that instant, the outbound
requests issued, and whether the 300 ms animation timeout was scheduled. -/
structure SwipeOutcome where
  state : AppState
  requests : List Request
  timerScheduled : Bool
deriving Repr, DecidableEq

/-- The decision-recording request `handleSwipe` issues for the current
queue position: `swipeEvent(events[currentIndex].id, interested)`. -/
def swipeRequestAt (s : AppState) (dir : Direction) : List Request :=
  match s.events.get? s.currentIndex with
  | some ev => [Request.swipe ev.id (interestedOf dir)]
  | none => []

/-- `handleSwipe(direction)` up to the settling of the `swipeEvent` call
(App.tsx lines 145-170), parametrized by whether the network call
`succeeds`.  When the guard blocks, nothing happens.  Otherwise the guard
is set, the decision-recording request for `events[currentIndex]` goes
out; on success the code only schedules a `setTimeout` (state updates are
deferred to the timeout callback, see `timeoutFire`); on failure the catch
block resets `swipeDirection` and clears the guard. -/
def handleSwipeSettled (s : AppState) (dir : Direction) (succeeds : Bool) :
    SwipeOutcome :=
  if swipeBlocked s then ⟨s, [], false⟩
  else
    let s1 : AppState := { s with swiping := true, swipeDirection := some dir }
    if succeeds then ⟨s1, swipeRequestAt s dir, true⟩
    else ⟨{ s1 with swipeDirection := none, swiping := false },
          swipeRequestAt s dir, false⟩

/-- The `setTimeout` callback of a successful swipe (App.tsx lines
160-164): advance the cursor, reset the direction, clear the guard. -/
def timeoutFire (s : AppState) : AppState :=
  { s with
    currentIndex := s.currentIndex + 1
    swipeDirection := none
    swiping := false }

/-- One externally observable step of the review-queue state machine. -/
inductive UiStep where
  | loadEvents (evs : List Event)
  | swipeSucceed (dir : Direction)
  | swipeFailed (dir : Direction)
deriving Repr, DecidableEq

/-- Step function over `AppState`.  `loadEvents` is the successful
`getEvents` continuation in `authenticate` (`setEvents; setCurrentIndex(0);
setLoading(false)`); `swipeSucceed` is `handleSwipeSettled` followed by the
scheduled timeout firing; `swipeFailed` is `handleSwipeSettled` on a
rejected swipe call. -/
def uiStep (s : AppState) : UiStep → AppState
  | .loadEvents evs =>
      { s with events := evs, currentIndex := 0, loading := false }
  | .swipeSucceed dir =>
      let o := handleSwipeSettled s dir true
      if o.timerScheduled then timeoutFire o.state else o.state
  | .swipeFailed dir => (handleSwipeSettled s dir false).state

/-- Run a sequence of steps from a state. -/
def runSteps (s : AppState) (steps : List UiStep) : AppState :=
  steps.foldl uiStep s

/-- Error message set when the URL has no token (App.tsx line 115). -/
def noTokenMsg : String :=
  "No authentication token found. Please get a new link from the Telegram bot."

/-- Fallback message of the catch block (App.tsx line 137). -/
def genericAuthFailMsg : String :=
  "Authentication failed. Please get a new link from the bot."

/-- `err.response?.data?.error || generic` (App.tsx line 137). -/
def errMsg (serverMsg : Option String) : String :=
  match serverMsg with
  | some m => if m = "" then genericAuthFailMsg else m
  | none => genericAuthFailMsg

/-- Collaborator responses the bootstrap may observe: the token-exchange
result (server error message carried on failure) and the result of the
subsequent `getEvents('upcoming')` fetch. -/
structure AuthEnv where
  exchange : String → Except (Option String) AuthResponse
  eventsFetch : Except (Option String) (List Event)

/-- Result of one run of the bootstrap effect: final component state, the
outbound requests issued, and the `localStorage.setItem` writes performed,
in order. -/
structure BootResult where
  state : AppState
  requests : List Request
  storeWrites : List (String × String)
deriving Repr, DecidableEq

/-- The `authenticate` effect (App.tsx lines 107-143).  No token (absent
or empty, JS-falsy) → set the no-token error, no network call.  Otherwise
issue `validateToken`; on rejection set the error from the response.  On
success write `user_id` and `username` to localStorage, mark
authenticated, then fetch the upcoming events; a fetch failure lands in
the same catch block. -/
def authenticate (env : AuthEnv) (search : List (String × String))
    (s : AppState) : BootResult :=
  match getParam search "token" with
  | none => ⟨{ s with error := some noTokenMsg, loading := false }, [], []⟩
  | some t =>
    if t = "" then ⟨{ s with error := some noTokenMsg, loading := false }, [], []⟩
    else
      match env.exchange t with
      | .error e =>
          ⟨{ s with error := some (errMsg e), loading := false },
            [Request.validateToken t], []⟩
      | .ok auth =>
          let writes := [("user_id", toString auth.user_id),
                         ("username", auth.username)]
          let s1 := { s with authenticated := true }
          match env.eventsFetch with
          | .error e =>
              ⟨{ s1 with error := some (errMsg e), loading := false },
                [Request.validateToken t, Request.getEvents "upcoming"],
                writes⟩
          | .ok evs =>
              ⟨{ s1 with events := evs, currentIndex := 0, loading := false },
                [Request.validateToken t, Request.getEvents "upcoming"],
                writes⟩

/-- Two invocations of the bootstrap effect (a duplicate mount): the
second run starts from the state the first one left; the request traces
concatenate.  `authenticate` contains no guard against re-entry. -/
def authenticateTwice (env : AuthEnv) (search : List (String × String)) :
    List Request :=
  let r1 := authenticate env search initialState
  let r2 := authenticate env search r1.state
  r1.requests ++ r2.requests

/-- Fee detail line of the eventsort-ui card
(components/EventCard.tsx line 36):
`event.fee !== null && event.fee > 0 && <span>${event.fee}</span>` —
the line renders only when the fee is non-null AND strictly positive. -/
def feeDetail (e : Event) : Option String :=
  match e.fee with
  | some f => if 0 < f then some ("$" ++ toString f) else none
  | none => none

end EventSortUI

namespace Frontend

/-- One entry of the react-query cache: a query key (react-query keys are
arrays; here lists of strings, numbers rendered to strings) and a
staleness mark. -/
structure CacheEntry where
  key : List String
  stale : Bool
deriving Repr, DecidableEq

/-- A react-query cache: the set of instantiated queries. -/
abbrev Cache := List CacheEntry

/-- Key filter matching of `invalidateQueries`: the filter key must be a
leading segment of the entry's key (react-query's default prefix match,
so `['events']` matches `['events', 'upcoming']` and `['events',
'interested']` but not `['stats']`). -/
def keyMatches : List String → List String → Bool
  | [], _ => true
  | _ :: _, [] => false
  | a :: as, b :: bs => a = b && keyMatches as bs

/-- `queryClient.invalidateQueries({ queryKey })`: mark every cached query
whose key matches the filter as stale. -/
def invalidateQueries (filterKey : List String) (c : Cache) : Cache :=
  c.map (fun e => if keyMatches filterKey e.key then { e with stale := true } else e)

/-- Cache lookup by exact key. -/
def findEntry (c : Cache) (k : List String) : Option CacheEntry :=
  c.find? (fun e => e.key = k)

/-- Whether a `useQuery` read of key `k` triggers a fetch: yes when the
query is not cached yet or its cached data is marked stale (mark-stale,
refetch-on-next-read semantics). -/
def readTriggersFetch (c : Cache) (k : List String) : Bool :=
  match findEntry c k with
  | some e => e.stale
  | none => true

/-- Query key of the stats query (hooks/useEvents.js `useStats`). -/
def statsKey : List String := ["stats"]

/-- Query key of the events query for a filter (hooks/useEvents.js
`useEvents`). -/
def eventsKey (filter : String) : List String := ["events", filter]

/-- One run of the swipe mutation (hooks/useEvents.js `useSwipeEvent`):
the decision-recording request always goes out; `onSuccess` invalidates
the queries under the `['events']` key; on failure there is no handler,
so the cache is untouched. -/
def useSwipeEventRun (c : Cache) (eventId : Nat) (interested : Bool)
    (succeeds : Bool) : Cache × List Request :=
  if succeeds then
    (invalidateQueries ["events"] c, [Request.swipe eventId interested])
  else
    (c, [Request.swipe eventId interested])

/-- Result of mounting `useAuth` once (hooks/useAuth.js): the auth-query
cache keys after the mount, the requests issued, and the
`sessionStorage.setItem` writes performed. -/
structure MountResult where
  cacheKeys : List (List String)
  requests : List Request
  writes : List (String × String)
deriving Repr, DecidableEq

/-- Mounting `useAuth` (hooks/useAuth.js lines 155-175).  The query key is
`['auth', token]` and the query is `enabled: !!token`.  A falsy token
(absent or empty) disables the query: nothing fetches.  A mount whose key
is already instantiated reuses the cached query (`staleTime: Infinity`,
in-flight dedup by key) and fetches nothing.  Otherwise the query function
runs: one `validateToken` call; on success `setUserId(data.user_id)`
writes the credential, on failure (`retry: false`) nothing is written. -/
def useAuthMount (cacheKeys : List (List String)) (tokenQ : Option String)
    (exchange : String → Except (Option String) AuthResponse) : MountResult :=
  match tokenQ with
  | none => ⟨cacheKeys, [], []⟩
  | some t =>
    if t = "" then ⟨cacheKeys, [], []⟩
    else
      let key := ["auth", t]
      if key ∈ cacheKeys then ⟨cacheKeys, [], []⟩
      else
        match exchange t with
        | .ok a =>
            ⟨key :: cacheKeys, [Request.validateToken t],
              [("user_id", toString a.user_id)]⟩
        | .error _ =>
            ⟨key :: cacheKeys, [Request.validateToken t], []⟩

/-- Two mounts of `useAuth` on the same page load (duplicate mount): the
second mount sees the cache keys the first one created. -/
def useAuthMountTwice (tokenQ : Option String)
    (exchange : String → Except (Option String) AuthResponse) : List Request :=
  let m1 := useAuthMount [] tokenQ exchange
  let m2 := useAuthMount m1.cacheKeys tokenQ exchange
  m1.requests ++ m2.requests

/-- Observable status of the auth query as `AppContent` reads it:
whether data has arrived and whether the query errored.  A disabled
query (falsy token) never runs, so it has neither data nor error. -/
structure AuthQueryState where
  hasData : Bool
  hasError : Bool
deriving Repr, DecidableEq

/-- The auth query state reached from a page load, with the requests it
issued.  Falsy token → query disabled, no request, no data, no error. -/
def useAuthQuery (tokenQ : Option String)
    (exchange : String → Except (Option String) AuthResponse) :
    AuthQueryState × List Request :=
  match tokenQ with
  | none => (⟨false, false⟩, [])
  | some t =>
    if t = "" then (⟨false, false⟩, [])
    else
      match exchange t with
      | .ok _ => (⟨true, false⟩, [Request.validateToken t])
      | .error _ => (⟨false, true⟩, [Request.validateToken t])

/-- The three screens `AppContent` can render (App.jsx lines 98-141). -/
inductive View where
  | loadingView
  | accessDenied
  | mainView
deriving Repr, DecidableEq

/-- `AppContent`'s rendering decision (App.jsx lines 101-124):
`isLoading` (no data yet and no error) → loading screen; `isError` →
the Access Denied screen; otherwise the main dashboard. -/
def appContentView (q : AuthQueryState) : View :=
  if !q.hasData && !q.hasError then View.loadingView
  else if q.hasError then View.accessDenied
  else View.mainView

/-- Fee detail line of the frontend card (App.jsx lines 30-34):
`event.fee !== null && (<div>… {event.fee === 0 ? 'Free' : `$fee`}</div>)`. -/
def feeDetail (e : Event) : Option String :=
  match e.fee with
  | some f => some (if f = 0 then "Free" else "$" ++ toString f)
  | none => none

end Frontend

namespace Client

/-- An outbound HTTP request as built by the axios layer: method, path,
query params, the JSON body's `interested` flag when present (swipe), and
the Authorization header if one was attached. -/
structure HttpRequest where
  method : String
  path : String
  params : List (String × String)
  bodyInterested : Option Bool
  authHeader : Option String
deriving Repr, DecidableEq

/-- The request interceptor shared by both variants
(frontend/src/api/client.js lines 25-31 and eventsort-ui services/api.ts
lines 317-323): read the stored `user_id`; if it is truthy, set
`Authorization: Bearer <userId>`; otherwise leave the request untouched
(no header is attached). -/
def applyInterceptor (stored : Option String) (r : HttpRequest) : HttpRequest :=
  match stored with
  | none => r
  | some u => if u = "" then r else { r with authHeader := some ("Bearer " ++ u) }

/-- A request issued through the `api` axios instance: built with no
Authorization header, then passed through the interceptor. -/
def apiRequest (stored : Option String) (method : String) (path : String)
    (params : List (String × String)) (bodyInterested : Option Bool) :
    HttpRequest :=
  applyInterceptor stored
    { method := method, path := path, params := params
      bodyInterested := bodyInterested, authHeader := none }

/-- `getEvents(filter)` → `GET /events?filter=...&include_raw=false`. -/
def getEventsReq (stored : Option String) (filter : String) : HttpRequest :=
  apiRequest stored "GET" "/events"
    [("filter", filter), ("include_raw", "false")] none

/-- `getEvent(eventId, includeRaw)` → `GET /events/{id}?include_raw=...`. -/
def getEventReq (stored : Option String) (id : Nat) (includeRaw : Bool) :
    HttpRequest :=
  apiRequest stored "GET" ("/events/" ++ toString id)
    [("include_raw", toString includeRaw)] none

/-- `swipeEvent(eventId, interested)` → `POST /events/{id}/swipe` with
body `{interested}`. -/
def swipeEventReq (stored : Option String) (id : Nat) (interested : Bool) :
    HttpRequest :=
  apiRequest stored "POST" ("/events/" ++ toString id ++ "/swipe")
    [] (some interested)

/-- `getInterestedEvents()` → `GET /events/interested/all`. -/
def getInterestedReq (stored : Option String) : HttpRequest :=
  apiRequest stored "GET" "/events/interested/all"
    [("include_raw", "false")] none

/-- `getStats()` → `GET /stats`. -/
def getStatsReq (stored : Option String) : HttpRequest :=
  apiRequest stored "GET" "/stats" [] none

/-- `validateToken(token)` uses the bare axios module, not the `api`
instance, so the interceptor never runs and no Authorization header is
attached. -/
def validateTokenReq (token : String) : HttpRequest :=
  { method := "POST", path := "/auth/validate-token"
    params := [("token", token)], bodyInterested := none, authHeader := none }

end Client

/-! Concrete sample inputs, used by witnesses and counterexamples. -/

/-- A concrete event record. -/
def sampleEvent : Event :=
  { id := 1
    user_id := 7
    username := "alice"
    title := "Tech Talk"
    event_type := "talk"
    date := "2026-11-01"
    location := some "LT1"
    synopsis := "A talk."
    organisation := none
    fee := none
    signup_link := none
    deadline := none
    target_audience := none
    refreshments := none
    key_speakers := none
    raw_message := none
    user_interested := none
    date_created := "2026-10-01" }

/-- A second concrete event record. -/
def sampleEvent2 : Event :=
  { sampleEvent with id := 2, title := "Career Fair" }

/-- A concrete successful token-exchange response. -/
def sampleAuth : AuthResponse :=
  { user_id := 7, username := "alice", message := "ok" }

/-- Collaborator environment in which the exchange and the events fetch
both succeed. -/
def sampleEnvOk : EventSortUI.AuthEnv :=
  { exchange := fun _ => Except.ok sampleAuth
    eventsFetch := Except.ok [sampleEvent, sampleEvent2] }

/-- Collaborator environment in which the exchange is rejected with a
server message. -/
def sampleEnvReject : EventSortUI.AuthEnv :=
  { exchange := fun _ => Except.error (some "expired")
    eventsFetch := Except.ok [] }

/-- A query string carrying a token. -/
def sampleSearch : List (String × String) := [("token", "abc")]

/-- A state mid-review: two events loaded, cursor at 0, idle guard. -/
def sampleReviewState : EventSortUI.AppState :=
  { EventSortUI.initialState with
    events := [sampleEvent, sampleEvent2]
    loading := false
    authenticated := true }

/-- A react-query cache holding a fresh events snapshot, a fresh
interested list, and a fresh stats value. -/
def sampleCache : Frontend.Cache :=
  [⟨["events", "upcoming"], false⟩, ⟨["events", "interested"], false⟩,
   ⟨["stats"], false⟩]

/-! Helper lemmas. -/

/-- The swipe guard is down exactly when no swipe is pending and the
cursor is strictly inside the queue. -/
theorem swipeBlocked_eq_false_iff (s : EventSortUI.AppState) :
    EventSortUI.swipeBlocked s = false ↔
      s.swiping = false ∧ s.currentIndex < s.events.length := by
  simp [EventSortUI.swipeBlocked, Nat.lt_iff_add_one_le]

/-- Unblocked successful swipe: the settled outcome sets the guard,
issues the position's request, and schedules the timeout. -/
theorem handleSwipeSettled_success (s : EventSortUI.AppState)
    (dir : EventSortUI.Direction) (h : EventSortUI.swipeBlocked s = false) :
    EventSortUI.handleSwipeSettled s dir true =
      ⟨{ s with swiping := true, swipeDirection := some dir },
        EventSortUI.swipeRequestAt s dir, true⟩ := by
  simp [EventSortUI.handleSwipeSettled, h]

/-- Unblocked failed swipe: the settled outcome keeps the cursor, clears
the guard and the direction, and schedules nothing. -/
theorem handleSwipeSettled_failure (s : EventSortUI.AppState)
    (dir : EventSortUI.Direction) (h : EventSortUI.swipeBlocked s = false) :
    EventSortUI.handleSwipeSettled s dir false =
      ⟨{ s with swiping := false, swipeDirection := none },
        EventSortUI.swipeRequestAt s dir, false⟩ := by
  simp [EventSortUI.handleSwipeSettled, h]

/-- A step never moves the cursor outside `0 ≤ cursor ≤ length`. -/
theorem uiStep_cursor_le_length (s : EventSortUI.AppState)
    (st : EventSortUI.UiStep) (h : s.currentIndex ≤ s.events.length) :
    (EventSortUI.uiStep s st).currentIndex ≤
      (EventSortUI.uiStep s st).events.length := by
  cases st with
  | loadEvents evs => simp [EventSortUI.uiStep]
  | swipeSucceed dir =>
      cases hb : EventSortUI.swipeBlocked s with
      | true =>
          simp [EventSortUI.uiStep, EventSortUI.handleSwipeSettled, hb]
          exact h
      | false =>
          obtain ⟨hsw, hlt⟩ := (swipeBlocked_eq_false_iff s).mp hb
          simp [EventSortUI.uiStep, handleSwipeSettled_success s dir hb,
                EventSortUI.timeoutFire]
          omega
  | swipeFailed dir =>
      cases hb : EventSortUI.swipeBlocked s with
      | true =>
          simp [EventSortUI.uiStep, EventSortUI.handleSwipeSettled, hb]
          exact h
      | false =>
          simp [EventSortUI.uiStep, handleSwipeSettled_failure s dir hb]
          exact h

/-- The bounds invariant holds along any run. -/
theorem runSteps_cursor_le_length (steps : List EventSortUI.UiStep)
    (s : EventSortUI.AppState) (h : s.currentIndex ≤ s.events.length) :
    (EventSortUI.runSteps s steps).currentIndex ≤
      (EventSortUI.runSteps s steps).events.length := by
  induction steps generalizing s with
  | nil => exact h
  | cons st rest ih => exact ih _ (uiStep_cursor_le_length s st h)

/-- Entries hit by an invalidation are marked stale. -/
theorem invalidateQueries_mem_stale (fk : List String) (c : Frontend.Cache)
    (e : Frontend.CacheEntry) (he : e ∈ Frontend.invalidateQueries fk c)
    (hm : Frontend.keyMatches fk e.key = true) : e.stale = true := by
  rcases List.mem_map.mp he with ⟨x, hx, rfl⟩
  by_cases hk : Frontend.keyMatches fk x.key = true
  · simp [hk]
  · simp [hk] at hm

/-- Invalidation with a non-matching filter key leaves the lookup of a
key untouched (keys are preserved; only matched entries change). -/
theorem findEntry_invalidateQueries_of_not_match (fk k : List String)
    (hk : Frontend.keyMatches fk k = false) (c : Frontend.Cache) :
    Frontend.findEntry (Frontend.invalidateQueries fk c) k =
      Frontend.findEntry c k := by
  induction c with
  | nil => rfl
  | cons e rest ih =>
      simp only [Frontend.invalidateQueries, List.map_cons] at ih ⊢
      by_cases hke : e.key = k
      · have hm : Frontend.keyMatches fk e.key = false := by rw [hke]; exact hk
        unfold Frontend.findEntry
        rw [List.find?_cons_of_pos, List.find?_cons_of_pos] <;>
          simp [hm, hke, hk]
      · by_cases hm : Frontend.keyMatches fk e.key = true
        · unfold Frontend.findEntry at ih ⊢
          rw [List.find?_cons_of_neg, List.find?_cons_of_neg]
          · exact ih
          · simp [hke]
          · simp [hm, hke]
        · unfold Frontend.findEntry at ih ⊢
          rw [List.find?_cons_of_neg, List.find?_cons_of_neg]
          · exact ih
          · simp [hke]
          · simp [hm, hke]

/-- Requests issued by one eventsort-ui bootstrap run with a non-empty
token: the exchange request, then (exchange permitting) the queue fetch. -/
theorem authenticate_one_exchange (env : EventSortUI.AuthEnv) (t : String)
    (ht : ¬ t = "") (s : EventSortUI.AppState) :
    ((EventSortUI.authenticate env [("token", t)] s).requests).countP
      isTokenExchange = 1 := by
  have hget : getParam [("token", t)] "token" = some t := by
    simp [getParam]
  unfold EventSortUI.authenticate
  simp only [hget, ht, if_false, ite_false]
  cases hx : env.exchange t with
  | error e => rfl
  | ok a => cases hf : env.eventsFetch with
    | error e => rfl
    | ok evs => rfl

/-! C1. -/

/-- C1: while a swipe for the current position is pending (in-flight
guard set) or the cursor is at or past the queue length, invoking the
swipe handler again issues no outbound request, changes no state, and
schedules nothing — regardless of gesture direction or how the (never
issued) request would have fared. -/
theorem swipe_guard_blocks_duplicate (s : EventSortUI.AppState)
    (dir : EventSortUI.Direction) (succeeds : Bool)
    (h : s.swiping = true ∨ s.events.length ≤ s.currentIndex) :
    EventSortUI.handleSwipeSettled s dir succeeds = ⟨s, [], false⟩ := by
  have hb : EventSortUI.swipeBlocked s = true := by
    rcases h with h | h <;> simp [EventSortUI.swipeBlocked, h]
  simp [EventSortUI.handleSwipeSettled, hb]

/-- Witness for C1: with the guard set on a two-event queue, a second
gesture is a no-op. -/
theorem swipe_guard_blocks_duplicate_witness :
    EventSortUI.handleSwipeSettled
        { sampleReviewState with swiping := true }
        EventSortUI.Direction.right true =
      ⟨{ sampleReviewState with swiping := true }, [], false⟩ :=
  swipe_guard_blocks_duplicate _ _ _ (Or.inl rfl)

/-! C8. -/

/-- C8 fails on the code: immediately after a successful swipe resolution
the animation timeout has been scheduled (the delay has started) yet the
in-flight guard is still set — it clears only inside the timeout
callback, not before or at the start of the delay. -/
theorem guard_set_when_delay_starts_counterexample :
    (EventSortUI.handleSwipeSettled sampleReviewState
        EventSortUI.Direction.right true).timerScheduled = true ∧
    (EventSortUI.handleSwipeSettled sampleReviewState
        EventSortUI.Direction.right true).state.swiping = true := by
  decide

/-- C8 amended: after a successful swipe resolution the visible-transition
delay starts with the in-flight guard still set, so a gesture issued
during the delay is ignored; the guard clears only when the delay ends
(in the timeout callback), at the same time the cursor advances. -/
theorem guard_clears_at_delay_end (s : EventSortUI.AppState)
    (dir dir2 : EventSortUI.Direction) (succeeds : Bool)
    (h : EventSortUI.swipeBlocked s = false) :
    (EventSortUI.handleSwipeSettled s dir true).timerScheduled = true ∧
    (EventSortUI.handleSwipeSettled s dir true).state.swiping = true ∧
    EventSortUI.handleSwipeSettled
        (EventSortUI.handleSwipeSettled s dir true).state dir2 succeeds =
      ⟨(EventSortUI.handleSwipeSettled s dir true).state, [], false⟩ ∧
    (EventSortUI.timeoutFire
        (EventSortUI.handleSwipeSettled s dir true).state).swiping = false ∧
    (EventSortUI.timeoutFire
        (EventSortUI.handleSwipeSettled s dir true).state).currentIndex =
      s.currentIndex + 1 := by
  rw [handleSwipeSettled_success s dir h]
  refine ⟨rfl, rfl, ?_, rfl, rfl⟩
  exact swipe_guard_blocks_duplicate _ _ _ (Or.inl rfl)

/-- Witness for C8 (amended): concrete two-event queue, cursor 0. -/
theorem guard_clears_at_delay_end_witness :
    (EventSortUI.timeoutFire
        (EventSortUI.handleSwipeSettled sampleReviewState
          EventSortUI.Direction.left true).state).currentIndex = 1 :=
  (guard_clears_at_delay_end sampleReviewState EventSortUI.Direction.left
    EventSortUI.Direction.right true (by decide)).2.2.2.2

/-! C7. -/

/-- C7 fails on the code: in the eventsort-ui card an event with
`fee = 0` renders no fee line at all — exactly like `fee = null` — and in
particular not "Free"; the two cases collapse into the same absent
branch there. -/
theorem fee_zero_collapses_counterexample :
    EventSortUI.feeDetail { sampleEvent with fee := some 0 } = none ∧
    EventSortUI.feeDetail { sampleEvent with fee := none } = none ∧
    ¬ EventSortUI.feeDetail { sampleEvent with fee := some 0 } = some "Free" := by
  decide

/-- C7 amended: the frontend card renders `fee = 0` as "Free", distinct
from `fee = null` which renders as absent; the eventsort-ui card shows a
fee line only for a strictly positive fee, so there `fee = 0` renders as
absent, collapsing with `fee = null`. -/
theorem fee_semantics_per_variant (e : Event) (f : Int) :
    (e.fee = some 0 → Frontend.feeDetail e = some "Free") ∧
    (e.fee = none → Frontend.feeDetail e = none) ∧
    (e.fee = some f → 0 < f →
      Frontend.feeDetail e = some ("$" ++ toString f)) ∧
    (e.fee = some f → f ≤ 0 → EventSortUI.feeDetail e = none) ∧
    (e.fee = none → EventSortUI.feeDetail e = none) ∧
    (e.fee = some f → 0 < f →
      EventSortUI.feeDetail e = some ("$" ++ toString f)) := by
  refine ⟨?_, ?_, ?_, ?_, ?_, ?_⟩ <;> intro h
  · simp [Frontend.feeDetail, h]
  · simp [Frontend.feeDetail, h]
  · intro hf
    have : f ≠ 0 := by omega
    simp [Frontend.feeDetail, h, this]
  · intro hf
    have : ¬ (0 < f) := by omega
    simp [EventSortUI.feeDetail, h, this]
  · simp [EventSortUI.feeDetail, h]
  · intro hf
    simp [EventSortUI.feeDetail, h, hf]

/-- Witness for C7 (amended): a zero-fee event is "Free" in the frontend
card and absent in the eventsort-ui card. -/
theorem fee_semantics_per_variant_witness :
    Frontend.feeDetail { sampleEvent with fee := some 0 } = some "Free" ∧
    EventSortUI.feeDetail { sampleEvent with fee := some 0 } = none :=
  ⟨(fee_semantics_per_variant { sampleEvent with fee := some 0 } 0).1 rfl,
   (fee_semantics_per_variant { sampleEvent with fee := some 0 } 0).2.2.2.1
     rfl (by decide)⟩

/-! C10. -/

/-- C10: every authenticated outbound call (events list, single event,
swipe, interested list, stats) built over a stored credential `u` carries
`Authorization: Bearer u`; with no stored credential the header is absent
(the interceptor leaves the request untouched). -/
theorem bearer_header_on_authed_requests (u : String) (hu : u ≠ "")
    (fil : String) (n : Nat) (inc : Bool) (b : Bool) :
    ((Client.getEventsReq (some u) fil).authHeader = some ("Bearer " ++ u) ∧
     (Client.getEventReq (some u) n inc).authHeader = some ("Bearer " ++ u) ∧
     (Client.swipeEventReq (some u) n b).authHeader = some ("Bearer " ++ u) ∧
     (Client.getInterestedReq (some u)).authHeader = some ("Bearer " ++ u) ∧
     (Client.getStatsReq (some u)).authHeader = some ("Bearer " ++ u)) ∧
    ((Client.getEventsReq none fil).authHeader = none ∧
     (Client.getEventReq none n inc).authHeader = none ∧
     (Client.swipeEventReq none n b).authHeader = none ∧
     (Client.getInterestedReq none).authHeader = none ∧
     (Client.getStatsReq none).authHeader = none) := by
  constructor
  · refine ⟨?_, ?_, ?_, ?_, ?_⟩ <;>
      simp [Client.getEventsReq, Client.getEventReq, Client.swipeEventReq,
            Client.getInterestedReq, Client.getStatsReq, Client.apiRequest,
            Client.applyInterceptor, hu]
  · refine ⟨?_, ?_, ?_, ?_, ?_⟩ <;>
      simp [Client.getEventsReq, Client.getEventReq, Client.swipeEventReq,
            Client.getInterestedReq, Client.getStatsReq, Client.apiRequest,
            Client.applyInterceptor]

/-- Witness for C10: credential "7", concrete endpoints. -/
theorem bearer_header_on_authed_requests_witness :
    (Client.getStatsReq (some "7")).authHeader = some ("Bearer " ++ "7") ∧
    (Client.swipeEventReq none 1 true).authHeader = none :=
  ⟨(bearer_header_on_authed_requests "7" (by decide) "upcoming" 1 false
      true).1.2.2.2.2,
   (bearer_header_on_authed_requests "7" (by decide) "upcoming" 1 false
      true).2.2.2.1⟩

/-! C2. -/

/-- C2: loading (or re-loading) the queue resets the cursor to 0; a
successful swipe resolution from an unblocked state advances the cursor
by exactly 1; no step other than a load ever decreases the cursor; and
along any run of steps the cursor never exceeds the queue length. -/
theorem cursor_monotonicity (s : EventSortUI.AppState) (evs : List Event)
    (dir : EventSortUI.Direction) (steps : List EventSortUI.UiStep) :
    ((EventSortUI.uiStep s (.loadEvents evs)).currentIndex = 0) ∧
    (EventSortUI.swipeBlocked s = false →
      (EventSortUI.uiStep s (.swipeSucceed dir)).currentIndex =
        s.currentIndex + 1) ∧
    (∀ st : EventSortUI.UiStep, (∀ e, st ≠ .loadEvents e) →
      s.currentIndex ≤ (EventSortUI.uiStep s st).currentIndex) ∧
    (s.currentIndex ≤ s.events.length →
      (EventSortUI.runSteps s steps).currentIndex ≤
        (EventSortUI.runSteps s steps).events.length) := by
  refine ⟨?_, ?_, ?_, ?_⟩
  · simp [EventSortUI.uiStep]
  · intro hb
    simp [EventSortUI.uiStep, handleSwipeSettled_success s dir hb,
          EventSortUI.timeoutFire]
  · intro st hst
    cases st with
    | loadEvents e => exact absurd rfl (hst e)
    | swipeSucceed d =>
        cases hb : EventSortUI.swipeBlocked s with
        | true => simp [EventSortUI.uiStep, EventSortUI.handleSwipeSettled, hb]
        | false =>
            simp [EventSortUI.uiStep, handleSwipeSettled_success s d hb,
                  EventSortUI.timeoutFire]
    | swipeFailed d =>
        cases hb : EventSortUI.swipeBlocked s with
        | true => simp [EventSortUI.uiStep, EventSortUI.handleSwipeSettled, hb]
        | false => simp [EventSortUI.uiStep, handleSwipeSettled_failure s d hb]
  · exact runSteps_cursor_le_length steps s

/-- Witness for C2: on the concrete two-event queue, one successful
swipe moves the cursor from 0 to 1. -/
theorem cursor_monotonicity_witness :
    (EventSortUI.uiStep sampleReviewState
        (.swipeSucceed EventSortUI.Direction.right)).currentIndex = 0 + 1 :=
  (cursor_monotonicity sampleReviewState [] EventSortUI.Direction.right
    []).2.1 (by decide)

/-! C4. -/

/-- C4: when the decision-recording request fails, the cursor and the
queue are unchanged (the same event stays current), the direction is
reset and the in-flight guard is released; the state is again unblocked
and a retry of the same gesture issues the same request; in the
react-query variant a failed swipe mutation leaves the cache untouched,
so no invalidation and no stats re-fetch occurs. -/
theorem swipe_failure_frame (s : EventSortUI.AppState)
    (dir : EventSortUI.Direction) (c : Frontend.Cache) (n : Nat) (b : Bool)
    (h : EventSortUI.swipeBlocked s = false) :
    ((EventSortUI.handleSwipeSettled s dir false).state.currentIndex =
        s.currentIndex ∧
     (EventSortUI.handleSwipeSettled s dir false).state.events = s.events ∧
     (EventSortUI.handleSwipeSettled s dir false).state.swiping = false ∧
     (EventSortUI.handleSwipeSettled s dir false).requests =
        EventSortUI.swipeRequestAt s dir ∧
     EventSortUI.swipeBlocked
        (EventSortUI.handleSwipeSettled s dir false).state = false ∧
     (EventSortUI.handleSwipeSettled
        (EventSortUI.handleSwipeSettled s dir false).state dir false).requests =
        EventSortUI.swipeRequestAt s dir) ∧
    ((Frontend.useSwipeEventRun c n b false).1 = c ∧
     (Frontend.useSwipeEventRun c n b false).2 = [Request.swipe n b] ∧
     Frontend.readTriggersFetch (Frontend.useSwipeEventRun c n b false).1
        Frontend.statsKey = Frontend.readTriggersFetch c Frontend.statsKey) := by
  obtain ⟨hsw, hlt⟩ := (swipeBlocked_eq_false_iff s).mp h
  rw [handleSwipeSettled_failure s dir h]
  have h2 : EventSortUI.swipeBlocked
      { s with swiping := false, swipeDirection := none } = false := by
    simp [EventSortUI.swipeBlocked]
    omega
  constructor
  · refine ⟨rfl, rfl, rfl, rfl, h2, ?_⟩
    rw [handleSwipeSettled_failure _ dir h2]
    simp [EventSortUI.swipeRequestAt]
  · exact ⟨rfl, rfl, rfl⟩

/-- Witness for C4: concrete failed swipe on the two-event queue and on
the concrete cache. -/
theorem swipe_failure_frame_witness :
    (EventSortUI.handleSwipeSettled sampleReviewState
        EventSortUI.Direction.left false).state.currentIndex =
      sampleReviewState.currentIndex ∧
    (Frontend.useSwipeEventRun sampleCache 1 false false).1 = sampleCache :=
  ⟨((swipe_failure_frame sampleReviewState EventSortUI.Direction.left
      sampleCache 1 false (by decide)).1).1,
   ((swipe_failure_frame sampleReviewState EventSortUI.Direction.left
      sampleCache 1 false (by decide)).2).1⟩

/-! C3. -/

/-- C3 fails on the code: starting from a cache holding a fresh events
snapshot and a fresh stats value, a successful swipe invalidates only the
queries under the `['events']` key; the stats entry stays fresh, so a
subsequent read of stats does NOT trigger a re-fetch — it returns the
cached value. -/
theorem swipe_stats_stay_cached_counterexample :
    Frontend.readTriggersFetch (Frontend.useSwipeEventRun sampleCache 1 true
        true).1 Frontend.statsKey = false ∧
    Frontend.readTriggersFetch (Frontend.useSwipeEventRun sampleCache 1 true
        true).1 (Frontend.eventsKey "upcoming") = true := by
  decide

/-- C3 amended: a successful swipe resolution invalidates every cached
query under the `['events']` key — the queue snapshot for the current
filter (indeed for every filter) and the interested list — but not the
Stats cache: the stats entry is left exactly as it was, so a subsequent
read of stats re-fetches if and only if it would have before the swipe. -/
theorem swipe_invalidates_events_not_stats (c : Frontend.Cache) (n : Nat)
    (b : Bool) :
    (∀ e ∈ (Frontend.useSwipeEventRun c n b true).1,
        Frontend.keyMatches ["events"] e.key = true → e.stale = true) ∧
    Frontend.findEntry (Frontend.useSwipeEventRun c n b true).1
        Frontend.statsKey = Frontend.findEntry c Frontend.statsKey ∧
    Frontend.readTriggersFetch (Frontend.useSwipeEventRun c n b true).1
        Frontend.statsKey = Frontend.readTriggersFetch c Frontend.statsKey := by
  have h1 : (Frontend.useSwipeEventRun c n b true).1 =
      Frontend.invalidateQueries ["events"] c := rfl
  rw [h1]
  refine ⟨?_, ?_, ?_⟩
  · intro e he hm
    exact invalidateQueries_mem_stale ["events"] c e he hm
  · exact findEntry_invalidateQueries_of_not_match ["events"]
      Frontend.statsKey (by decide) c
  · unfold Frontend.readTriggersFetch
    rw [findEntry_invalidateQueries_of_not_match ["events"]
      Frontend.statsKey (by decide) c]

/-- Witness for C3 (amended): on the concrete cache, the upcoming-events
entry ends up stale and the stats lookup is unchanged. -/
theorem swipe_invalidates_events_not_stats_witness :
    Frontend.findEntry (Frontend.useSwipeEventRun sampleCache 2 false true).1
        Frontend.statsKey = Frontend.findEntry sampleCache Frontend.statsKey :=
  (swipe_invalidates_events_not_stats sampleCache 2 false).2.1

/-! C5. -/

/-- C5 fails on the code for the frontend variant: with no token in the
URL no network call is made (the auth query is disabled), but the app
renders the loading screen — not the access-denied/no-token state — since
a query that never runs never errors. -/
theorem no_token_frontend_view_counterexample :
    (Frontend.useAuthQuery none sampleEnvReject.exchange).2 = [] ∧
    Frontend.appContentView
        (Frontend.useAuthQuery none sampleEnvReject.exchange).1 =
      Frontend.View.loadingView ∧
    ¬ Frontend.appContentView
        (Frontend.useAuthQuery none sampleEnvReject.exchange).1 =
      Frontend.View.accessDenied := by
  decide

/-- C5 amended: with no (or an empty, hence JS-falsy) token parameter
neither variant issues any network call; the eventsort-ui bootstrap goes
directly to its no-token error state, while the frontend's auth query is
disabled and the app stays on the loading view rather than reaching the
access-denied state. -/
theorem no_token_zero_network (env : EventSortUI.AuthEnv)
    (search : List (String × String)) (s : EventSortUI.AppState)
    (exchange : String → Except (Option String) AuthResponse)
    (tq : Option String) (hsearch : getParam search "token" = tq)
    (htq : jsTruthy tq = false) :
    (EventSortUI.authenticate env search s =
      ⟨{ s with error := some EventSortUI.noTokenMsg, loading := false },
        [], []⟩) ∧
    (Frontend.useAuthQuery tq exchange = (⟨false, false⟩, [])) ∧
    (Frontend.appContentView (Frontend.useAuthQuery tq exchange).1 =
      Frontend.View.loadingView) ∧
    (Frontend.useAuthMount [] tq exchange = ⟨[], [], []⟩) := by
  cases tq with
  | none =>
      refine ⟨?_, rfl, rfl, rfl⟩
      unfold EventSortUI.authenticate
      rw [hsearch]
  | some t =>
      have ht : t = "" := by
        simpa [jsTruthy] using htq
      subst ht
      refine ⟨?_, rfl, rfl, rfl⟩
      unfold EventSortUI.authenticate
      rw [hsearch]
      simp

/-- Witness for C5 (amended): empty query string. -/
theorem no_token_zero_network_witness :
    EventSortUI.authenticate sampleEnvOk [] EventSortUI.initialState =
      ⟨{ EventSortUI.initialState with error := some EventSortUI.noTokenMsg, loading := false }, [], []⟩ :=
  (no_token_zero_network sampleEnvOk [] EventSortUI.initialState
    sampleEnvReject.exchange none rfl rfl).1

/-! C6. -/

/-- C6 fails on the code: the eventsort-ui bootstrap has no dedup — two
invocations of its `authenticate` effect on the same page (duplicate
mount) issue two token-exchange requests, not one. -/
theorem duplicate_bootstrap_two_exchanges_counterexample :
    (EventSortUI.authenticateTwice sampleEnvOk sampleSearch).countP
        isTokenExchange = 2 ∧
    ¬ (EventSortUI.authenticateTwice sampleEnvOk sampleSearch).countP
        isTokenExchange = 1 := by
  decide

/-- C6 amended: the frontend variant deduplicates through the stable
query key `['auth', token]` — two mounts with the same valid token issue
exactly one token-exchange request; the eventsort-ui bootstrap effect has
no dedup and issues one exchange request per invocation, so a duplicate
mount there issues two. -/
theorem duplicate_mount_exchange_count (t : String)
    (exchange : String → Except (Option String) AuthResponse)
    (env : EventSortUI.AuthEnv) (ht : ¬ t = "") :
    (Frontend.useAuthMountTwice (some t) exchange).countP isTokenExchange
      = 1 ∧
    (EventSortUI.authenticateTwice env [("token", t)]).countP isTokenExchange
      = 2 := by
  constructor
  · unfold Frontend.useAuthMountTwice Frontend.useAuthMount
    cases hx : exchange t with
    | ok a => simp [ht, isTokenExchange, hx]
    | error e => simp [ht, isTokenExchange, hx]
  · unfold EventSortUI.authenticateTwice
    rw [List.countP_append]
    rw [authenticate_one_exchange env t ht, authenticate_one_exchange env t ht]

/-- Witness for C6 (amended): token "abc", concrete environments. -/
theorem duplicate_mount_exchange_count_witness :
    (Frontend.useAuthMountTwice (some "abc")
        sampleEnvReject.exchange).countP isTokenExchange = 1 :=
  (duplicate_mount_exchange_count "abc" sampleEnvReject.exchange sampleEnvOk
    (by decide)).1

/-! C9. -/

/-- C9: the bootstrap writes the credential exactly once on success and
never on failure.  In eventsort-ui: with a falsy token or a rejected
exchange no store write happens at all; when the exchange succeeds the
writes are exactly the `user_id` credential (once) followed by the
display `username` — one write to the credential key.  In the frontend:
a rejected exchange writes nothing; a successful one writes exactly the
`user_id` credential once. -/
theorem bootstrap_store_writes (env : EventSortUI.AuthEnv)
    (search : List (String × String)) (s : EventSortUI.AppState)
    (t : String) (em : Option String) (a : AuthResponse)
    (exchange : String → Except (Option String) AuthResponse)
    (ht : ¬ t = "") :
    (jsTruthy (getParam search "token") = false →
      (EventSortUI.authenticate env search s).storeWrites = []) ∧
    (env.exchange t = .error em →
      (EventSortUI.authenticate env [("token", t)] s).storeWrites = []) ∧
    (env.exchange t = .ok a →
      (EventSortUI.authenticate env [("token", t)] s).storeWrites =
        [("user_id", toString a.user_id), ("username", a.username)] ∧
      ((EventSortUI.authenticate env [("token", t)] s).storeWrites.countP
        (fun w => w.1 == "user_id")) = 1) ∧
    (exchange t = .error em →
      (Frontend.useAuthMount [] (some t) exchange).writes = []) ∧
    (exchange t = .ok a →
      (Frontend.useAuthMount [] (some t) exchange).writes =
        [("user_id", toString a.user_id)]) := by
  have hget : getParam [("token", t)] "token" = some t := by
    simp [getParam]
  refine ⟨?_, ?_, ?_, ?_, ?_⟩
  · intro hfalsy
    cases hq : getParam search "token" with
    | none =>
        unfold EventSortUI.authenticate
        rw [hq]
    | some t' =>
        rw [hq] at hfalsy
        have ht' : t' = "" := by simpa [jsTruthy] using hfalsy
        subst ht'
        unfold EventSortUI.authenticate
        rw [hq]
        simp
  · intro hx
    unfold EventSortUI.authenticate
    simp only [hget, ht, if_false, ite_false, hx]
  · intro hx
    unfold EventSortUI.authenticate
    simp only [hget, ht, if_false, ite_false, hx]
    cases hf : env.eventsFetch with
    | error e2 => exact ⟨rfl, rfl⟩
    | ok evs => exact ⟨rfl, rfl⟩
  · intro hx
    unfold Frontend.useAuthMount
    simp only [ht, if_false, ite_false, hx]
    rfl
  · intro hx
    unfold Frontend.useAuthMount
    simp only [ht, if_false, ite_false, hx]
    rfl

/-- Witness for C9: successful exchange writes the credential once; the
rejecting environment writes nothing. -/
theorem bootstrap_store_writes_witness :
    (EventSortUI.authenticate sampleEnvOk [("token", "abc")]
        EventSortUI.initialState).storeWrites =
      [("user_id", toString sampleAuth.user_id),
       ("username", sampleAuth.username)] ∧
    (EventSortUI.authenticate sampleEnvReject [("token", "abc")]
        EventSortUI.initialState).storeWrites = [] :=
  ⟨((bootstrap_store_writes sampleEnvOk sampleSearch EventSortUI.initialState
      "abc" (some "expired") sampleAuth sampleEnvReject.exchange
      (by decide)).2.2.1 rfl).1,
   (bootstrap_store_writes sampleEnvReject sampleSearch
      EventSortUI.initialState "abc" (some "expired") sampleAuth
      sampleEnvReject.exchange (by decide)).2.1 rfl⟩

end TeleBot
